import Mathlib

/-!
Shallow embedding of src/src/gui/windows/main_window.py from the
GaussianSplattingRegistration repository.

The file under verification is GUI glue: the slots of RegistrationMainWindow
construct worker objects, move them onto freshly created QThread instances,
wire Qt signals to slots, and drive a modal progress dialog.  We embed each
handler as a pure function from the relevant window state (and the arguments
the Qt signal delivers) to the list of observable effects it performs, in the
order the Python statements execute them.  Where a handler mutates fields of
the window we return the updated state as well.

Values that the handlers only pass through (point clouds, matrices, scalar
worker parameters) are modelled abstractly: a point cloud carries the two
attributes this file ever inspects (Python truthiness and the result of
is_point_cloud_gaussian), a matrix carries an identity and a dtype flag so
that the astype(np.float32) casts are observable, and scalar parameters are
opaque strings.
-/

namespace GSplatReg

/-- Abstract point-cloud value.  `nonEmpty` models Python truthiness of the
object (the handlers test point clouds with `not pc`), and `gaussianFlag`
models the answer of the `is_point_cloud_gaussian` utility on it. -/
structure PointCloud where
  gaussianFlag : Bool
  nonEmpty : Bool
deriving DecidableEq, Repr

/-- Python truthiness of an optional point-cloud value: None is falsy, an
object is as truthy as its `nonEmpty` attribute. -/
def truthy : Option PointCloud → Bool
  | none => false
  | some pc => pc.nonEmpty

/-- Modelled from the spec: `is_point_cloud_gaussian` lives in
src/utils/file_loader.py, which is outside the excerpt; the spec lists it as a
file-loading utility.  We model it as the Gaussian attribute of the value,
false on a missing point cloud. -/
def is_point_cloud_gaussian : Option PointCloud → Bool
  | none => false
  | some pc => pc.gaussianFlag

/-- Abstract matrix (numpy array): an identity plus a dtype flag recording
whether astype(np.float32) has been applied. -/
structure Matrix where
  mid : Nat
  isF32 : Bool
deriving DecidableEq, Repr

/-- Model of numpy astype(np.float32) on an abstract matrix. -/
def astypeFloat32 (m : Matrix) : Matrix := ⟨m.mid, true⟩

/-- Abstract dataclass holding the results and parameters of the last local
registration (stored in self.local_registration_data). -/
structure RegData where
  rid : Nat
deriving DecidableEq, Repr

/-- Opaque scalar parameter forwarded untouched into a worker constructor. -/
abbrev Param : Type := String

/-- The worker classes imported by main_window.py. -/
inductive WorkerKind
  | localRegistrator
  | ransacRegistrator
  | fgrRegistrator
  | multiScaleRegistrator
  | rasterizerWorker
  | registrationEvaluator
deriving DecidableEq, Repr

/-- The Qt signals that main_window.py connects. -/
inductive Signal
  | threadStarted
  | registrationDone
  | errorOccurred
  | finishedWorker
  | threadFinished
  | rasterizationDone
  | evaluationDone
  | progressCanceled
  | updateProgress
deriving DecidableEq, Repr

/-- The slots and callbacks main_window.py connects signals to. -/
inductive Slot
  | doRegistration
  | doRasterization
  | doEvaluation
  | handleRegistrationResult
  | createErrorListDialog
  | createRasterWindow
  | handleEvaluationResult
  | threadQuit
  | workerDeleteLater
  | threadDeleteLater
  | cancelEvaluation
  | progressSetValue
deriving DecidableEq, Repr

/-- Arguments a worker constructor receives.  Every worker gets the two point
clouds and the current transformation matrix; the rasterizer additionally
gets camera matrices, the evaluator the stored local-registration data, and
the remaining scalar parameters are collected in order in `extra`. -/
structure WorkerArgs where
  kind : WorkerKind
  pc1 : Option PointCloud
  pc2 : Option PointCloud
  transformation : Matrix
  extrinsic : Option Matrix
  intrinsic : Option Matrix
  localData : Option RegData
  extra : List Param
deriving DecidableEq, Repr

/-- Observable effects of the handlers, in Python statement order. -/
inductive Event
  | constructWorker (a : WorkerArgs)
  | createThread
  | moveToThread (k : WorkerKind)
  | connectSig (s : Signal) (sl : Slot)
  | startThread
  | setProgressLabel (s : String)
  | setProgressRange (lo hi : Nat)
  | execProgressDialog
  | closeProgressDialog
  | showErrorDialog (msg : String)
  | showMessageDialog (title text : String) (detailed : Option String)
  | setTransformation (m : Matrix)
  | showRasterWindow (pix : Param) (title : String)
  | loadPlyfile (path : String)
  | saveMerged (pcFirst pcSecond : Option PointCloud) (path : String) (m : Matrix)
  | runPointCloudSaver (pc1 pc2 : Option PointCloud)
  | paneLoadPointClouds (pc1 pc2 : Option PointCloud)
deriving DecidableEq, Repr

/-- The fields of RegistrationMainWindow the embedded handlers read or write:
the stored original point clouds, the point clouds held by the Open3D pane,
the transformation matrix of the transformation picker, the camera state of
the Open3D pane, and the stored local-registration data. -/
structure MainWindowState where
  pc_originalFirst : Option PointCloud
  pc_originalSecond : Option PointCloud
  pane_pc1 : Option PointCloud
  pane_pc2 : Option PointCloud
  transformation_matrix : Matrix
  pane_isOrtho : Bool
  pane_extrinsic : Matrix
  pane_intrinsic : Matrix
  local_registration_data : Option RegData
deriving DecidableEq, Repr

/-! Static dialog messages, verbatim from main_window.py. -/

/-- Error text of handle_result (lines 175 to 176). -/
def importFailedMessage : String :=
  "Importing one or both of the point clouds failed.\nPlease check that you entered the correct path!"

/-- First error text of merge_point_clouds (lines 206 to 207). -/
def mergeImportFailedMessage : String :=
  "Importing one or both of the point clouds failed.\nPlease check that you entered the correct path and the point clouds selected are Gaussian point clouds!"

/-- Second error text of merge_point_clouds (lines 211 to 212). -/
def mergeNoPreloadMessage : String :=
  "There were no preloaded point clouds found! Load a Gaussian point cloud before merging, or check the \"corresponding inputs\" option and select the point clouds you wish to merge."

/-- First error text of rasterize_gaussians (lines 352 to 353). -/
def rasterNotGaussianMessage : String :=
  "One or both of the point clouds loaded are not of the correct type.\nLoad two Gaussian point clouds for rasterization!"

/-- Second error text of rasterize_gaussians (lines 365 to 366). -/
def rasterOrthoMessage : String :=
  "The current projection type is orthographical, which is invalid for rasterization.\nIncrease the FOV to continue!"

/-- Error text of evaluate_registration (lines 410 to 411). -/
def evalNoPcMessage : String :=
  "There are no gaussian point clouds loaded for registration evaluation!\nPlease load two point clouds for registration and evaluation"

/-! The handlers, one Lean definition per Python method. -/

/-- check_if_none_and_throw_error (lines 219 to 228): returns True and shows a
modal QErrorMessage when either point cloud is falsy, else returns False.  The
boolean result and the emitted events are returned as a pair. -/
def check_if_none_and_throw_error (pc_first pc_second : Option PointCloud)
    (message : String) : Bool × List Event :=
  if !truthy pc_first || !truthy pc_second then
    (true, [Event.showErrorDialog message])
  else
    (false, [])

/-- handle_result (lines 174 to 187): on a failed import shows the error
dialog and returns with the window state untouched; otherwise stores the
originals, optionally runs a PointCloudSaver, and asks the Open3D pane to
load the new point clouds. -/
def handle_result (st : MainWindowState) (pc_first pc_second : Option PointCloud)
    (save_point_clouds : Bool) (original1 original2 : Option PointCloud) :
    MainWindowState × List Event :=
  let c := check_if_none_and_throw_error pc_first pc_second importFailedMessage
  if c.1 then
    (st, c.2)
  else
    (⟨original1, original2, st.pane_pc1, st.pane_pc2, st.transformation_matrix,
      st.pane_isOrtho, st.pane_extrinsic, st.pane_intrinsic, st.local_registration_data⟩,
     (if save_point_clouds then [Event.runPointCloudSaver pc_first pc_second] else []) ++
       [Event.paneLoadPointClouds pc_first pc_second])

/-- merge_point_clouds (lines 199 to 217).  The Python body reads the stored
originals, overwrites both locals with load_plyfile_pc results when the
corresponding-inputs box is checked (running the first null check only in
that case), then runs the preload null check, and finally calls
save_merged_point_clouds with the surviving point clouds, the merge path and
the transformation matrix of the picker.  The file system is abstracted by
the `load` oracle standing for load_plyfile_pc. -/
def merge_point_clouds (st : MainWindowState) (is_checked : Bool)
    (pc_path1 pc_path2 merge_path : String) (load : String → Option PointCloud) :
    List Event :=
  if is_checked then
    let pc_first := load pc_path1
    let pc_second := load pc_path2
    let c1 := check_if_none_and_throw_error pc_first pc_second mergeImportFailedMessage
    if c1.1 then
      Event.loadPlyfile pc_path1 :: Event.loadPlyfile pc_path2 :: c1.2
    else
      let c2 := check_if_none_and_throw_error pc_first pc_second mergeNoPreloadMessage
      if c2.1 then
        Event.loadPlyfile pc_path1 :: Event.loadPlyfile pc_path2 :: c2.2
      else
        [Event.loadPlyfile pc_path1, Event.loadPlyfile pc_path2,
         Event.saveMerged pc_first pc_second merge_path st.transformation_matrix]
  else
    let pc_first := st.pc_originalFirst
    let pc_second := st.pc_originalSecond
    let c2 := check_if_none_and_throw_error pc_first pc_second mergeNoPreloadMessage
    if c2.1 then
      c2.2
    else
      [Event.saveMerged pc_first pc_second merge_path st.transformation_matrix]

/-- do_local_registration (lines 230 to 253): builds a LocalRegistrator from
the pane point clouds and the picker matrix, spawns and wires a QThread,
starts it, and opens the progress dialog. -/
def do_local_registration (st : MainWindowState)
    (registration_type max_correspondence relative_fitness relative_rmse
     max_iteration rejection_type k_value : Param) : List Event :=
  [Event.constructWorker
     ⟨WorkerKind.localRegistrator, st.pane_pc1, st.pane_pc2, st.transformation_matrix,
      none, none, none,
      [registration_type, max_correspondence, relative_fitness, relative_rmse,
       max_iteration, rejection_type, k_value]⟩,
   Event.createThread,
   Event.moveToThread WorkerKind.localRegistrator,
   Event.connectSig Signal.threadStarted Slot.doRegistration,
   Event.connectSig Signal.registrationDone Slot.handleRegistrationResult,
   Event.connectSig Signal.finishedWorker Slot.threadQuit,
   Event.connectSig Signal.finishedWorker Slot.workerDeleteLater,
   Event.connectSig Signal.threadFinished Slot.threadDeleteLater,
   Event.startThread,
   Event.setProgressLabel "Registering point clouds...",
   Event.execProgressDialog]

/-- do_ransac_registration (lines 255 to 278): same thread pattern with a
RANSACRegistrator built from the pane point clouds and the picker matrix. -/
def do_ransac_registration (st : MainWindowState)
    (voxel_size mutual_filter max_correspondence estimation_method ransac_n
     checkers max_iteration confidence : Param) : List Event :=
  [Event.constructWorker
     ⟨WorkerKind.ransacRegistrator, st.pane_pc1, st.pane_pc2, st.transformation_matrix,
      none, none, none,
      [voxel_size, mutual_filter, max_correspondence, estimation_method, ransac_n,
       checkers, max_iteration, confidence]⟩,
   Event.createThread,
   Event.moveToThread WorkerKind.ransacRegistrator,
   Event.connectSig Signal.threadStarted Slot.doRegistration,
   Event.connectSig Signal.registrationDone Slot.handleRegistrationResult,
   Event.connectSig Signal.finishedWorker Slot.threadQuit,
   Event.connectSig Signal.finishedWorker Slot.workerDeleteLater,
   Event.connectSig Signal.threadFinished Slot.threadDeleteLater,
   Event.startThread,
   Event.setProgressLabel "Registering point clouds...",
   Event.execProgressDialog]

/-- do_fgr_registration (lines 280 to 303): same thread pattern with an
FGRRegistrator built from the pane point clouds and the picker matrix. -/
def do_fgr_registration (st : MainWindowState)
    (voxel_size division_factor use_absolute_scale decrease_mu
     maximum_correspondence max_iterations tuple_scale max_tuple_count
     tuple_test : Param) : List Event :=
  [Event.constructWorker
     ⟨WorkerKind.fgrRegistrator, st.pane_pc1, st.pane_pc2, st.transformation_matrix,
      none, none, none,
      [voxel_size, division_factor, use_absolute_scale, decrease_mu,
       maximum_correspondence, max_iterations, tuple_scale, max_tuple_count,
       tuple_test]⟩,
   Event.createThread,
   Event.moveToThread WorkerKind.fgrRegistrator,
   Event.connectSig Signal.threadStarted Slot.doRegistration,
   Event.connectSig Signal.registrationDone Slot.handleRegistrationResult,
   Event.connectSig Signal.finishedWorker Slot.threadQuit,
   Event.connectSig Signal.finishedWorker Slot.workerDeleteLater,
   Event.connectSig Signal.threadFinished Slot.threadDeleteLater,
   Event.startThread,
   Event.setProgressLabel "Registering point clouds...",
   Event.execProgressDialog]

/-- do_multi_scale_registration (lines 320 to 346): same thread pattern with a
MultiScaleRegistrator; this worker additionally connects its error signal to
create_error_list_dialog. -/
def do_multi_scale_registration (st : MainWindowState)
    (use_corresponding sparse_first sparse_second registration_type
     relative_fitness relative_rmse voxel_values iter_values rejection_type
     k_value : Param) : List Event :=
  [Event.constructWorker
     ⟨WorkerKind.multiScaleRegistrator, st.pane_pc1, st.pane_pc2, st.transformation_matrix,
      none, none, none,
      [use_corresponding, sparse_first, sparse_second, registration_type,
       relative_fitness, relative_rmse, voxel_values, iter_values, rejection_type,
       k_value]⟩,
   Event.createThread,
   Event.moveToThread WorkerKind.multiScaleRegistrator,
   Event.connectSig Signal.threadStarted Slot.doRegistration,
   Event.connectSig Signal.registrationDone Slot.handleRegistrationResult,
   Event.connectSig Signal.errorOccurred Slot.createErrorListDialog,
   Event.connectSig Signal.finishedWorker Slot.threadQuit,
   Event.connectSig Signal.finishedWorker Slot.workerDeleteLater,
   Event.connectSig Signal.threadFinished Slot.threadDeleteLater,
   Event.startThread,
   Event.setProgressLabel "Registering point clouds...",
   Event.execProgressDialog]

/-- rasterize_gaussians (lines 348 to 389): rejects non-Gaussian stored point
clouds and orthographic projections with modal error dialogs, otherwise casts
the pane extrinsics to float32, takes the supplied intrinsics or the pane
intrinsics cast to float32, builds a RasterizerWorker and spawns its thread. -/
def rasterize_gaussians (st : MainWindowState)
    (width height scale color : Param) (intrinsics_supplied : Option Matrix) :
    List Event :=
  let pc1 := st.pc_originalFirst
  let pc2 := st.pc_originalSecond
  if !is_point_cloud_gaussian pc1 || !is_point_cloud_gaussian pc2 then
    [Event.showErrorDialog rasterNotGaussianMessage]
  else if st.pane_isOrtho then
    [Event.showErrorDialog rasterOrthoMessage]
  else
    let extrinsic := astypeFloat32 st.pane_extrinsic
    let intrinsic :=
      match intrinsics_supplied with
      | none => astypeFloat32 st.pane_intrinsic
      | some m => m
    [Event.constructWorker
       ⟨WorkerKind.rasterizerWorker, pc1, pc2, st.transformation_matrix,
        some extrinsic, some intrinsic, none, [scale, color, height, width]⟩,
     Event.createThread,
     Event.moveToThread WorkerKind.rasterizerWorker,
     Event.connectSig Signal.threadStarted Slot.doRasterization,
     Event.connectSig Signal.rasterizationDone Slot.createRasterWindow,
     Event.connectSig Signal.finishedWorker Slot.threadQuit,
     Event.connectSig Signal.finishedWorker Slot.workerDeleteLater,
     Event.connectSig Signal.threadFinished Slot.threadDeleteLater,
     Event.startThread,
     Event.setProgressLabel "Creating rasterized image...",
     Event.execProgressDialog]

/-- evaluate_registration (lines 402 to 435): rejects missing stored point
clouds with a modal error dialog, otherwise builds a RegistrationEvaluator
(also receiving the stored local-registration data), wires its thread, sets
up the progress dialog range and cancellation, starts the thread, and opens
the dialog. -/
def evaluate_registration (st : MainWindowState)
    (camera_list image_path log_path color use_gpu : Param) : List Event :=
  let pc1 := st.pc_originalFirst
  let pc2 := st.pc_originalSecond
  if !truthy pc1 || !truthy pc2 then
    [Event.showErrorDialog evalNoPcMessage]
  else
    [Event.constructWorker
       ⟨WorkerKind.registrationEvaluator, pc1, pc2, st.transformation_matrix,
        none, none, st.local_registration_data,
        [camera_list, image_path, log_path, color, use_gpu]⟩,
     Event.createThread,
     Event.moveToThread WorkerKind.registrationEvaluator,
     Event.connectSig Signal.threadStarted Slot.doEvaluation,
     Event.connectSig Signal.evaluationDone Slot.handleEvaluationResult,
     Event.connectSig Signal.finishedWorker Slot.threadQuit,
     Event.connectSig Signal.finishedWorker Slot.workerDeleteLater,
     Event.connectSig Signal.threadFinished Slot.threadDeleteLater,
     Event.setProgressLabel "Evaluating registration...",
     Event.setProgressRange 0 100,
     Event.connectSig Signal.progressCanceled Slot.cancelEvaluation,
     Event.connectSig Signal.updateProgress Slot.progressSetValue,
     Event.startThread,
     Event.execProgressDialog]

/-- Results object delivered by the registration-done signal: the handler
reads fitness, inlier_rmse (both only formatted into the message) and the
transformation. -/
structure RegResults where
  fitness : String
  inlier_rmse : String
  transformation : Matrix
deriving DecidableEq, Repr

/-- handle_registration_result (lines 305 to 318): closes the progress dialog,
shows the success message box, stores the local-registration data when it is
not None, and pushes the resulting transformation into the picker. -/
def handle_registration_result (st : MainWindowState) (results : RegResults)
    (data : Option RegData) : MainWindowState × List Event :=
  (⟨st.pc_originalFirst, st.pc_originalSecond, st.pane_pc1, st.pane_pc2,
    st.transformation_matrix, st.pane_isOrtho, st.pane_extrinsic, st.pane_intrinsic,
    match data with
    | some d => some d
    | none => st.local_registration_data⟩,
   [Event.closeProgressDialog,
    Event.showMessageDialog "Successful registration"
      ("The registration of the point clouds is finished.\n" ++
       "The transformation will be applied.\n\n" ++
       "Fitness: " ++ results.fitness ++ "\n" ++
       "RMSE: " ++ results.inlier_rmse ++ "\n")
      none,
    Event.setTransformation results.transformation])

/-- create_raster_window (lines 391 to 397): closes the progress dialog and
opens the raster image viewer with the received pixmap. -/
def create_raster_window (pix : Param) : List Event :=
  [Event.closeProgressDialog,
   Event.showRasterWindow pix "Rasterized point clouds"]

/-- Log object delivered by the evaluation-done signal.  The metric fields are
kept as their formatted text; `psnr_isnan` records the result of
math.isnan(log_object.psnr), the only float operation this file performs. -/
structure EvalLog where
  mse : String
  rmse : String
  ssim : String
  psnr : String
  psnr_isnan : Bool
  lpips : String
  error_list : List String
deriving DecidableEq, Repr

/-- Message text assembled by handle_evaluation_result (lines 442 to 455). -/
def evaluationMessage (log_object : EvalLog) : String :=
  let message := "The evaluation finished with"
  let message :=
    if !log_object.psnr_isnan then
      message ++ " success.\n" ++
        "\nMSE:  " ++ log_object.mse ++
        "\nRMSE: " ++ log_object.rmse ++
        "\nSSIM: " ++ log_object.ssim ++
        "\nPSNR: " ++ log_object.psnr ++
        "\nLPIP: " ++ log_object.lpips
    else
      message ++ " error."
  if !log_object.error_list.isEmpty then
    message ++ "\nClick \"Show details\" for any potential issues."
  else
    message

/-- handle_evaluation_result (lines 437 to 458): closes the progress dialog and
shows the assembled message box, attaching the error list as detailed text
when it is nonempty. -/
def handle_evaluation_result (log_object : EvalLog) : List Event :=
  [Event.closeProgressDialog,
   Event.showMessageDialog "Evaluation finished" (evaluationMessage log_object)
     (if !log_object.error_list.isEmpty then
        some (String.intercalate "\n" log_object.error_list)
      else
        none)]

/-- create_error_list_dialog (lines 460 to 467): closes the progress dialog and
shows the static error message box with the joined error list as detailed
text. -/
def create_error_list_dialog (error_list : List String) : List Event :=
  [Event.closeProgressDialog,
   Event.showMessageDialog "Error occured"
     "The following error(s) occurred.\n Click \"Show details\" for more information!"
     (some (String.intercalate "\n" error_list))]

/-- The widgets constructed in setup_registration_group, one value per Python
constructor call, so equal values mean the same widget instance. -/
inductive RegWidget
  | globalRegistrationTab
  | localRegistrationTab
  | multiScaleRegistrationTab
  | evaluationTab
deriving DecidableEq, Repr

/-- The addTab calls of setup_registration_group (lines 156 to 160), in
order: widget instance and tab label. -/
def setup_registration_group_tabs : List (RegWidget × String) :=
  [(RegWidget.globalRegistrationTab, "Global Registration"),
   (RegWidget.localRegistrationTab, "Local Registration"),
   (RegWidget.multiScaleRegistrationTab, "Multi-scale"),
   (RegWidget.multiScaleRegistrationTab, "Multi-scale"),
   (RegWidget.evaluationTab, "Evaluation")]

/-! Observation helpers over event traces. -/

/-- Predicate matching the thread-creation event. -/
def isCreateThread : Event → Bool
  | Event.createThread => true
  | _ => false

/-- Predicate matching the thread-start event. -/
def isStartThread : Event → Bool
  | Event.startThread => true
  | _ => false

/-- Predicate matching the opening (exec) of the progress dialog. -/
def isExecDialog : Event → Bool
  | Event.execProgressDialog => true
  | _ => false

/-- Predicate matching a connection of the canceled signal of the progress
dialog. -/
def isCanceledConnect : Event → Bool
  | Event.connectSig Signal.progressCanceled _ => true
  | _ => false

/-- Error-dialog messages emitted by a trace, in order. -/
def errorMessages (t : List Event) : List String :=
  t.filterMap fun e =>
    match e with
    | Event.showErrorDialog msg => some msg
    | _ => none

/-- Worker constructions performed by a trace, in order. -/
def constructedWorkers (t : List Event) : List WorkerArgs :=
  t.filterMap fun e =>
    match e with
    | Event.constructWorker a => some a
    | _ => none

/-- Texts of the message boxes a trace opens, in order. -/
def shownMessages (t : List Event) : List String :=
  t.filterMap fun e =>
    match e with
    | Event.showMessageDialog _ text _ => some text
    | _ => none

/-- Save calls performed by a trace, in order. -/
def saveCalls (t : List Event) : List (Option PointCloud × Option PointCloud × String × Matrix) :=
  t.filterMap fun e =>
    match e with
    | Event.saveMerged a b p m => some (a, b, p, m)
    | _ => none

/-- A trace spawns the worker thread correctly for worker kind `k` with
do-method `doSlot` when it creates exactly one thread, moves the worker onto
it, connects the started signal of the thread to the do-method, starts the
thread exactly once, and opens the progress dialog exactly once, after the
thread start. -/
def spawnsCorrectly (t : List Event) (k : WorkerKind) (doSlot : Slot) : Bool :=
  (constructedWorkers t).length == 1 &&
  t.countP isCreateThread == 1 &&
  t.contains (Event.moveToThread k) &&
  t.contains (Event.connectSig Signal.threadStarted doSlot) &&
  t.countP isStartThread == 1 &&
  t.countP isExecDialog == 1 &&
  Nat.blt (t.findIdx isStartThread) (t.findIdx isExecDialog)

/-- The static error messages this layer can display. -/
def staticErrorMessages : List String :=
  [importFailedMessage, mergeImportFailedMessage, mergeNoPreloadMessage,
   rasterNotGaussianMessage, rasterOrthoMessage, evalNoPcMessage]

/-! Concrete fixtures used to instantiate the theorems. -/

/-- A loaded Gaussian point cloud. -/
def gaussPC : PointCloud := ⟨true, true⟩

/-- A loaded point cloud that is truthy but not Gaussian. -/
def plainPC : PointCloud := ⟨false, true⟩

/-- A window state with no point clouds loaded. -/
def stEmpty : MainWindowState :=
  ⟨none, none, none, none, ⟨0, false⟩, false, ⟨1, false⟩, ⟨2, false⟩, none⟩

/-- A window state with Gaussian point clouds loaded everywhere and a
perspective projection. -/
def stGauss : MainWindowState :=
  ⟨some gaussPC, some gaussPC, some gaussPC, some gaussPC, ⟨0, false⟩, false,
   ⟨1, false⟩, ⟨2, false⟩, none⟩

/-- A window state whose stored originals are truthy but not Gaussian. -/
def stPlain : MainWindowState :=
  ⟨some plainPC, some plainPC, some plainPC, some plainPC, ⟨0, false⟩, false,
   ⟨1, false⟩, ⟨2, false⟩, none⟩

/-- A supplied intrinsics matrix whose dtype is not float32. -/
def suppliedIntr : Matrix := ⟨7, false⟩

/-! Theorems settling the claims. -/

/-- Claim C8: setup_registration_group performs five addTab calls labelled
Global Registration, Local Registration, Multi-scale, Multi-scale and
Evaluation, and the two Multi-scale entries hold the same
MultiScaleRegistrationTab widget instance. -/
theorem c8_duplicate_multiscale_tab :
    setup_registration_group_tabs.map Prod.snd =
      ["Global Registration", "Local Registration", "Multi-scale", "Multi-scale",
       "Evaluation"] ∧
    setup_registration_group_tabs.length = 5 ∧
    setup_registration_group_tabs.get? 2 =
      some (RegWidget.multiScaleRegistrationTab, "Multi-scale") ∧
    setup_registration_group_tabs.get? 3 =
      some (RegWidget.multiScaleRegistrationTab, "Multi-scale") :=
  ⟨rfl, rfl, rfl, rfl⟩

/-- Claim C1 counterexample: an evaluation request made while no point cloud
is loaded shows an error dialog and creates no QThread at all, so it is not
the case that every evaluation request creates exactly one new QThread. -/
theorem c1_counterexample :
    (evaluate_registration stEmpty "cams" "img" "log" "color" "gpu").countP
        isCreateThread = 0 ∧
    errorMessages (evaluate_registration stEmpty "cams" "img" "log" "color" "gpu") =
      [evalNoPcMessage] :=
  ⟨rfl, rfl⟩

/-- Claim C1 (amended): on every request that reaches the spawning code
(unconditionally for the four registration handlers, and when the input
checks pass for rasterization and evaluation), the handler constructs exactly
one worker, creates exactly one new QThread, moves the worker onto it,
connects the started signal of the thread to the do-method of the worker, and
starts the thread before opening the progress dialog. -/
theorem c1_amended_spawn_discipline (st : MainWindowState)
    (a b c d e f g h i j : Param) (intr : Option Matrix)
    (hg1 : is_point_cloud_gaussian st.pc_originalFirst = true)
    (hg2 : is_point_cloud_gaussian st.pc_originalSecond = true)
    (ho : st.pane_isOrtho = false)
    (ht1 : truthy st.pc_originalFirst = true)
    (ht2 : truthy st.pc_originalSecond = true) :
    spawnsCorrectly (do_local_registration st a b c d e f g)
      WorkerKind.localRegistrator Slot.doRegistration = true ∧
    spawnsCorrectly (do_ransac_registration st a b c d e f g h)
      WorkerKind.ransacRegistrator Slot.doRegistration = true ∧
    spawnsCorrectly (do_fgr_registration st a b c d e f g h i)
      WorkerKind.fgrRegistrator Slot.doRegistration = true ∧
    spawnsCorrectly (do_multi_scale_registration st a b c d e f g h i j)
      WorkerKind.multiScaleRegistrator Slot.doRegistration = true ∧
    spawnsCorrectly (rasterize_gaussians st a b c d intr)
      WorkerKind.rasterizerWorker Slot.doRasterization = true ∧
    spawnsCorrectly (evaluate_registration st a b c d e)
      WorkerKind.registrationEvaluator Slot.doEvaluation = true := by
  refine ⟨rfl, rfl, rfl, rfl, ?_, ?_⟩
  · simp only [rasterize_gaussians, hg1, hg2, ho]
    cases intr <;> rfl
  · simp only [evaluate_registration, ht1, ht2]
    rfl

/-- Claim C1 witness: the amended spawn discipline instantiated on a concrete
state holding loaded Gaussian point clouds. -/
theorem c1_amended_witness :
    spawnsCorrectly (do_local_registration stGauss "a" "b" "c" "d" "e" "f" "g")
      WorkerKind.localRegistrator Slot.doRegistration = true ∧
    spawnsCorrectly (do_ransac_registration stGauss "a" "b" "c" "d" "e" "f" "g" "h")
      WorkerKind.ransacRegistrator Slot.doRegistration = true ∧
    spawnsCorrectly (do_fgr_registration stGauss "a" "b" "c" "d" "e" "f" "g" "h" "i")
      WorkerKind.fgrRegistrator Slot.doRegistration = true ∧
    spawnsCorrectly (do_multi_scale_registration stGauss "a" "b" "c" "d" "e" "f" "g" "h" "i" "j")
      WorkerKind.multiScaleRegistrator Slot.doRegistration = true ∧
    spawnsCorrectly (rasterize_gaussians stGauss "a" "b" "c" "d" none)
      WorkerKind.rasterizerWorker Slot.doRasterization = true ∧
    spawnsCorrectly (evaluate_registration stGauss "a" "b" "c" "d" "e")
      WorkerKind.registrationEvaluator Slot.doEvaluation = true :=
  c1_amended_spawn_discipline stGauss "a" "b" "c" "d" "e" "f" "g" "h" "i" "j" none
    rfl rfl rfl rfl rfl

/-- Claim C2: in every spawned background request the progress dialog is
opened after the thread start, the completion or error signal of each worker
is connected to its result handler, and each of the four result handlers
closes the progress dialog as its first action. -/
theorem c2_dialog_lifecycle (st st2 : MainWindowState)
    (a b c d e f g h i j : Param) (intr : Option Matrix)
    (results : RegResults) (data : Option RegData) (log : EvalLog)
    (errs : List String) (pix : Param)
    (hg1 : is_point_cloud_gaussian st.pc_originalFirst = true)
    (hg2 : is_point_cloud_gaussian st.pc_originalSecond = true)
    (ho : st.pane_isOrtho = false)
    (ht1 : truthy st.pc_originalFirst = true)
    (ht2 : truthy st.pc_originalSecond = true) :
    ((do_local_registration st a b c d e f g).contains
        (Event.connectSig Signal.registrationDone Slot.handleRegistrationResult) &&
      Nat.blt ((do_local_registration st a b c d e f g).findIdx isStartThread)
        ((do_local_registration st a b c d e f g).findIdx isExecDialog)) = true ∧
    ((do_ransac_registration st a b c d e f g h).contains
        (Event.connectSig Signal.registrationDone Slot.handleRegistrationResult) &&
      Nat.blt ((do_ransac_registration st a b c d e f g h).findIdx isStartThread)
        ((do_ransac_registration st a b c d e f g h).findIdx isExecDialog)) = true ∧
    ((do_fgr_registration st a b c d e f g h i).contains
        (Event.connectSig Signal.registrationDone Slot.handleRegistrationResult) &&
      Nat.blt ((do_fgr_registration st a b c d e f g h i).findIdx isStartThread)
        ((do_fgr_registration st a b c d e f g h i).findIdx isExecDialog)) = true ∧
    ((do_multi_scale_registration st a b c d e f g h i j).contains
        (Event.connectSig Signal.registrationDone Slot.handleRegistrationResult) &&
      (do_multi_scale_registration st a b c d e f g h i j).contains
        (Event.connectSig Signal.errorOccurred Slot.createErrorListDialog) &&
      Nat.blt ((do_multi_scale_registration st a b c d e f g h i j).findIdx isStartThread)
        ((do_multi_scale_registration st a b c d e f g h i j).findIdx isExecDialog)) = true ∧
    ((rasterize_gaussians st a b c d intr).contains
        (Event.connectSig Signal.rasterizationDone Slot.createRasterWindow) &&
      Nat.blt ((rasterize_gaussians st a b c d intr).findIdx isStartThread)
        ((rasterize_gaussians st a b c d intr).findIdx isExecDialog)) = true ∧
    ((evaluate_registration st a b c d e).contains
        (Event.connectSig Signal.evaluationDone Slot.handleEvaluationResult) &&
      Nat.blt ((evaluate_registration st a b c d e).findIdx isStartThread)
        ((evaluate_registration st a b c d e).findIdx isExecDialog)) = true ∧
    (handle_registration_result st2 results data).2.head? =
      some Event.closeProgressDialog ∧
    (create_raster_window pix).head? = some Event.closeProgressDialog ∧
    (handle_evaluation_result log).head? = some Event.closeProgressDialog ∧
    (create_error_list_dialog errs).head? = some Event.closeProgressDialog := by
  refine ⟨rfl, rfl, rfl, rfl, ?_, ?_, rfl, rfl, rfl, rfl⟩
  · simp only [rasterize_gaussians, hg1, hg2, ho]
    cases intr <;> rfl
  · simp only [evaluate_registration, ht1, ht2]
    rfl

/-- Claim C2 witness: the dialog lifecycle instantiated on concrete states,
results and logs. -/
theorem c2_dialog_lifecycle_witness :
    ((do_local_registration stGauss "a" "b" "c" "d" "e" "f" "g").contains
        (Event.connectSig Signal.registrationDone Slot.handleRegistrationResult) &&
      Nat.blt ((do_local_registration stGauss "a" "b" "c" "d" "e" "f" "g").findIdx isStartThread)
        ((do_local_registration stGauss "a" "b" "c" "d" "e" "f" "g").findIdx isExecDialog)) = true ∧
    ((do_ransac_registration stGauss "a" "b" "c" "d" "e" "f" "g" "h").contains
        (Event.connectSig Signal.registrationDone Slot.handleRegistrationResult) &&
      Nat.blt ((do_ransac_registration stGauss "a" "b" "c" "d" "e" "f" "g" "h").findIdx isStartThread)
        ((do_ransac_registration stGauss "a" "b" "c" "d" "e" "f" "g" "h").findIdx isExecDialog)) = true ∧
    ((do_fgr_registration stGauss "a" "b" "c" "d" "e" "f" "g" "h" "i").contains
        (Event.connectSig Signal.registrationDone Slot.handleRegistrationResult) &&
      Nat.blt ((do_fgr_registration stGauss "a" "b" "c" "d" "e" "f" "g" "h" "i").findIdx isStartThread)
        ((do_fgr_registration stGauss "a" "b" "c" "d" "e" "f" "g" "h" "i").findIdx isExecDialog)) = true ∧
    ((do_multi_scale_registration stGauss "a" "b" "c" "d" "e" "f" "g" "h" "i" "j").contains
        (Event.connectSig Signal.registrationDone Slot.handleRegistrationResult) &&
      (do_multi_scale_registration stGauss "a" "b" "c" "d" "e" "f" "g" "h" "i" "j").contains
        (Event.connectSig Signal.errorOccurred Slot.createErrorListDialog) &&
      Nat.blt ((do_multi_scale_registration stGauss "a" "b" "c" "d" "e" "f" "g" "h" "i" "j").findIdx isStartThread)
        ((do_multi_scale_registration stGauss "a" "b" "c" "d" "e" "f" "g" "h" "i" "j").findIdx isExecDialog)) = true ∧
    ((rasterize_gaussians stGauss "a" "b" "c" "d" none).contains
        (Event.connectSig Signal.rasterizationDone Slot.createRasterWindow) &&
      Nat.blt ((rasterize_gaussians stGauss "a" "b" "c" "d" none).findIdx isStartThread)
        ((rasterize_gaussians stGauss "a" "b" "c" "d" none).findIdx isExecDialog)) = true ∧
    ((evaluate_registration stGauss "a" "b" "c" "d" "e").contains
        (Event.connectSig Signal.evaluationDone Slot.handleEvaluationResult) &&
      Nat.blt ((evaluate_registration stGauss "a" "b" "c" "d" "e").findIdx isStartThread)
        ((evaluate_registration stGauss "a" "b" "c" "d" "e").findIdx isExecDialog)) = true ∧
    (handle_registration_result stGauss ⟨"0.5", "0.1", ⟨3, false⟩⟩ none).2.head? =
      some Event.closeProgressDialog ∧
    (create_raster_window "pix").head? = some Event.closeProgressDialog ∧
    (handle_evaluation_result ⟨"1", "2", "3", "4", false, "5", []⟩).head? =
      some Event.closeProgressDialog ∧
    (create_error_list_dialog ["oops"]).head? = some Event.closeProgressDialog :=
  c2_dialog_lifecycle stGauss stGauss "a" "b" "c" "d" "e" "f" "g" "h" "i" "j" none
    ⟨"0.5", "0.1", ⟨3, false⟩⟩ none ⟨"1", "2", "3", "4", false, "5", []⟩ ["oops"] "pix"
    rfl rfl rfl rfl rfl

/-- Claim C3: only the evaluation request connects the canceled signal of the
progress dialog to a worker cancel callback; the five other spawning handlers
never connect that signal, on any path. -/
theorem c3_cancellation_only_for_evaluation (st : MainWindowState)
    (a b c d e f g h i j : Param) (intr : Option Matrix)
    (ht1 : truthy st.pc_originalFirst = true)
    (ht2 : truthy st.pc_originalSecond = true) :
    (evaluate_registration st a b c d e).contains
      (Event.connectSig Signal.progressCanceled Slot.cancelEvaluation) = true ∧
    (evaluate_registration st a b c d e).countP isCanceledConnect = 1 ∧
    (do_local_registration st a b c d e f g).countP isCanceledConnect = 0 ∧
    (do_ransac_registration st a b c d e f g h).countP isCanceledConnect = 0 ∧
    (do_fgr_registration st a b c d e f g h i).countP isCanceledConnect = 0 ∧
    (do_multi_scale_registration st a b c d e f g h i j).countP isCanceledConnect = 0 ∧
    (rasterize_gaussians st a b c d intr).countP isCanceledConnect = 0 := by
  refine ⟨?_, ?_, rfl, rfl, rfl, rfl, ?_⟩
  · simp only [evaluate_registration, ht1, ht2]
    rfl
  · simp only [evaluate_registration, ht1, ht2]
    rfl
  · simp only [rasterize_gaussians]
    rcases hb : (!is_point_cloud_gaussian st.pc_originalFirst ||
        !is_point_cloud_gaussian st.pc_originalSecond) with _ | _
    · simp only [Bool.false_eq_true, if_false]
      rcases ho : st.pane_isOrtho with _ | _
      · simp only [Bool.false_eq_true, if_false]
        cases intr <;> rfl
      · rfl
    · rfl

/-- Claim C3 witness: the cancellation wiring instantiated on a concrete
loaded state. -/
theorem c3_cancellation_witness :
    (evaluate_registration stGauss "a" "b" "c" "d" "e").contains
      (Event.connectSig Signal.progressCanceled Slot.cancelEvaluation) = true ∧
    (evaluate_registration stGauss "a" "b" "c" "d" "e").countP isCanceledConnect = 1 ∧
    (do_local_registration stGauss "a" "b" "c" "d" "e" "f" "g").countP isCanceledConnect = 0 ∧
    (do_ransac_registration stGauss "a" "b" "c" "d" "e" "f" "g" "h").countP isCanceledConnect = 0 ∧
    (do_fgr_registration stGauss "a" "b" "c" "d" "e" "f" "g" "h" "i").countP isCanceledConnect = 0 ∧
    (do_multi_scale_registration stGauss "a" "b" "c" "d" "e" "f" "g" "h" "i" "j").countP
      isCanceledConnect = 0 ∧
    (rasterize_gaussians stGauss "a" "b" "c" "d" none).countP isCanceledConnect = 0 :=
  c3_cancellation_only_for_evaluation stGauss "a" "b" "c" "d" "e" "f" "g" "h" "i" "j" none
    rfl rfl

/-- Claim C4 counterexample: rasterize_gaussians displays an error dialog in
a state where both point-cloud inputs are loaded and truthy (so no null check
can have failed); the check that triggered the dialog is the Gaussian-type
check, not a null check. -/
theorem c4_counterexample :
    errorMessages (rasterize_gaussians stPlain "w" "h" "s" "c" none) =
      [rasterNotGaussianMessage] ∧
    truthy stPlain.pc_originalFirst = true ∧
    truthy stPlain.pc_originalSecond = true :=
  ⟨rfl, rfl, rfl⟩

/-- Claim C4 (amended): every error in this layer is surfaced through a modal
dialog whose message is one of the fixed static texts, and the checks guarding
an error dialog are truthiness (null) checks on the point-cloud inputs, except
in rasterize_gaussians, which instead checks that both stored point clouds are
Gaussian and that the projection is not orthographic. -/
theorem c4_amended_error_surface (st : MainWindowState)
    (pcf pcs o1 o2 : Option PointCloud) (sv is_checked : Bool)
    (p1 p2 mp : String) (load : String → Option PointCloud)
    (a b c d e f g h i j : Param) (intr : Option Matrix) :
    (errorMessages (handle_result st pcf pcs sv o1 o2).2).all
      staticErrorMessages.contains = true ∧
    (errorMessages (merge_point_clouds st is_checked p1 p2 mp load)).all
      staticErrorMessages.contains = true ∧
    (errorMessages (rasterize_gaussians st a b c d intr)).all
      staticErrorMessages.contains = true ∧
    (errorMessages (evaluate_registration st a b c d e)).all
      staticErrorMessages.contains = true ∧
    errorMessages (do_local_registration st a b c d e f g) = [] ∧
    errorMessages (do_ransac_registration st a b c d e f g h) = [] ∧
    errorMessages (do_fgr_registration st a b c d e f g h i) = [] ∧
    errorMessages (do_multi_scale_registration st a b c d e f g h i j) = [] ∧
    (errorMessages (handle_result st pcf pcs sv o1 o2).2).isEmpty =
      (truthy pcf && truthy pcs) ∧
    (errorMessages (evaluate_registration st a b c d e)).isEmpty =
      (truthy st.pc_originalFirst && truthy st.pc_originalSecond) ∧
    (errorMessages (rasterize_gaussians st a b c d intr)).isEmpty =
      (is_point_cloud_gaussian st.pc_originalFirst &&
        is_point_cloud_gaussian st.pc_originalSecond && !st.pane_isOrtho) ∧
    (errorMessages (merge_point_clouds st true p1 p2 mp load)).isEmpty =
      (truthy (load p1) && truthy (load p2)) ∧
    (errorMessages (merge_point_clouds st false p1 p2 mp load)).isEmpty =
      (truthy st.pc_originalFirst && truthy st.pc_originalSecond) := by
  refine ⟨?_, ?_, ?_, ?_, rfl, rfl, rfl, rfl, ?_, ?_, ?_, ?_, ?_⟩
  · cases hp : truthy pcf <;> cases hq : truthy pcs <;> cases sv <;>
      simp [handle_result, check_if_none_and_throw_error, hp, hq, errorMessages,
        importFailedMessage, staticErrorMessages]
  · cases is_checked <;>
      cases hp : truthy st.pc_originalFirst <;>
      cases hq : truthy st.pc_originalSecond <;>
      cases h1 : truthy (load p1) <;> cases h2 : truthy (load p2) <;>
      simp [merge_point_clouds, check_if_none_and_throw_error, hp, hq, h1, h2,
        errorMessages, staticErrorMessages, mergeImportFailedMessage,
        mergeNoPreloadMessage]
  · cases hg1 : is_point_cloud_gaussian st.pc_originalFirst <;>
      cases hg2 : is_point_cloud_gaussian st.pc_originalSecond <;>
      cases ho : st.pane_isOrtho <;> cases intr <;>
      simp [rasterize_gaussians, hg1, hg2, ho, errorMessages, staticErrorMessages,
        rasterNotGaussianMessage, rasterOrthoMessage]
  · cases hp : truthy st.pc_originalFirst <;>
      cases hq : truthy st.pc_originalSecond <;>
      simp [evaluate_registration, hp, hq, errorMessages, staticErrorMessages,
        evalNoPcMessage]
  · cases hp : truthy pcf <;> cases hq : truthy pcs <;> cases sv <;>
      simp [handle_result, check_if_none_and_throw_error, hp, hq, errorMessages]
  · cases hp : truthy st.pc_originalFirst <;>
      cases hq : truthy st.pc_originalSecond <;>
      simp [evaluate_registration, hp, hq, errorMessages]
  · cases hg1 : is_point_cloud_gaussian st.pc_originalFirst <;>
      cases hg2 : is_point_cloud_gaussian st.pc_originalSecond <;>
      cases ho : st.pane_isOrtho <;> cases intr <;>
      simp [rasterize_gaussians, hg1, hg2, ho, errorMessages]
  · cases h1 : truthy (load p1) <;> cases h2 : truthy (load p2) <;>
      simp [merge_point_clouds, check_if_none_and_throw_error, h1, h2, errorMessages]
  · cases hp : truthy st.pc_originalFirst <;>
      cases hq : truthy st.pc_originalSecond <;>
      simp [merge_point_clouds, check_if_none_and_throw_error, hp, hq, errorMessages]

/-- Claim C5: with the corresponding-inputs option checked, merge_point_clouds
loads both point clouds through load_plyfile_pc; when either load result is
falsy it shows the error dialog and performs no save, and otherwise it saves
the merged result with the transformation matrix of the picker. -/
theorem c5_merge_checked (st : MainWindowState) (p1 p2 mp : String)
    (load : String → Option PointCloud) :
    (merge_point_clouds st true p1 p2 mp load).take 2 =
      [Event.loadPlyfile p1, Event.loadPlyfile p2] ∧
    ((truthy (load p1) && truthy (load p2)) = false →
      merge_point_clouds st true p1 p2 mp load =
        [Event.loadPlyfile p1, Event.loadPlyfile p2,
         Event.showErrorDialog mergeImportFailedMessage]) ∧
    ((truthy (load p1) && truthy (load p2)) = true →
      merge_point_clouds st true p1 p2 mp load =
        [Event.loadPlyfile p1, Event.loadPlyfile p2,
         Event.saveMerged (load p1) (load p2) mp st.transformation_matrix]) := by
  refine ⟨?_, ?_, ?_⟩
  · cases h1 : truthy (load p1) <;> cases h2 : truthy (load p2) <;>
      simp [merge_point_clouds, check_if_none_and_throw_error, h1, h2]
  · intro h
    rcases h1 : truthy (load p1) with _ | _ <;>
      rcases h2 : truthy (load p2) with _ | _
    · simp [merge_point_clouds, check_if_none_and_throw_error, h1, h2]
    · simp [merge_point_clouds, check_if_none_and_throw_error, h1, h2]
    · simp [merge_point_clouds, check_if_none_and_throw_error, h1, h2]
    · simp [h1, h2] at h
  · intro h
    rcases h1 : truthy (load p1) with _ | _ <;>
      rcases h2 : truthy (load p2) with _ | _
    · simp [h1, h2] at h
    · simp [h1, h2] at h
    · simp [h1, h2] at h
    · simp [merge_point_clouds, check_if_none_and_throw_error, h1, h2]

/-- Claim C5 witness: the checked merge instantiated with a loader that finds
a Gaussian point cloud at one path and nothing at another. -/
theorem c5_merge_checked_witness :
    (merge_point_clouds stEmpty true "one.ply" "two.ply" "out.ply"
        (fun p => if p == "one.ply" then some gaussPC else none)).take 2 =
      [Event.loadPlyfile "one.ply", Event.loadPlyfile "two.ply"] ∧
    merge_point_clouds stEmpty true "one.ply" "two.ply" "out.ply"
        (fun p => if p == "one.ply" then some gaussPC else none) =
      [Event.loadPlyfile "one.ply", Event.loadPlyfile "two.ply",
       Event.showErrorDialog mergeImportFailedMessage] := by
  have h := c5_merge_checked stEmpty "one.ply" "two.ply" "out.ply"
    (fun p => if p == "one.ply" then some gaussPC else none)
  exact ⟨h.1, h.2.1 rfl⟩

/-- Claim C6: when the PSNR of the evaluation log is not NaN the dialog text
reports the MSE, RMSE, SSIM, PSNR and LPIPS values of the log object, and when
it is NaN the dialog text reports an error and carries no metric values. -/
theorem c6_evaluation_dialog (log : EvalLog) :
    (log.psnr_isnan = false →
      shownMessages (handle_evaluation_result log) =
        ["The evaluation finished with" ++ " success.\n" ++
          "\nMSE:  " ++ log.mse ++
          "\nRMSE: " ++ log.rmse ++
          "\nSSIM: " ++ log.ssim ++
          "\nPSNR: " ++ log.psnr ++
          "\nLPIP: " ++ log.lpips ++
          (if !log.error_list.isEmpty then
            "\nClick \"Show details\" for any potential issues."
          else
            "")]) ∧
    (log.psnr_isnan = true →
      shownMessages (handle_evaluation_result log) =
        ["The evaluation finished with" ++ " error." ++
          (if !log.error_list.isEmpty then
            "\nClick \"Show details\" for any potential issues."
          else
            "")]) := by
  constructor
  · intro h
    cases he : log.error_list.isEmpty <;>
      simp [handle_evaluation_result, shownMessages, evaluationMessage, h, he]
  · intro h
    cases he : log.error_list.isEmpty <;>
      simp [handle_evaluation_result, shownMessages, evaluationMessage, h, he]

/-- Claim C6 witness: the evaluation dialog instantiated on a successful log
and on a log whose PSNR is NaN. -/
theorem c6_evaluation_dialog_witness :
    shownMessages (handle_evaluation_result ⟨"1", "2", "3", "4", false, "5", []⟩) =
      ["The evaluation finished with success.\n\nMSE:  1\nRMSE: 2\nSSIM: 3\nPSNR: 4\nLPIP: 5"] ∧
    shownMessages (handle_evaluation_result ⟨"1", "2", "3", "nan", true, "5", []⟩) =
      ["The evaluation finished with error."] := by
  have hs := (c6_evaluation_dialog ⟨"1", "2", "3", "4", false, "5", []⟩).1 rfl
  have he := (c6_evaluation_dialog ⟨"1", "2", "3", "nan", true, "5", []⟩).2 rfl
  refine ⟨?_, ?_⟩
  · rw [hs]
    rfl
  · rw [he]
    rfl

/-- Claim C7: every request handler delegates the computation by constructing
exactly one worker of the corresponding class, handing it the current point
clouds and the transformation matrix of the picker (plus the forwarded scalar
parameters, the camera matrices for the rasterizer, and the stored
local-registration data for the evaluator). -/
theorem c7_delegation (st : MainWindowState)
    (a b c d e f g h i j : Param) (intr : Option Matrix)
    (hg1 : is_point_cloud_gaussian st.pc_originalFirst = true)
    (hg2 : is_point_cloud_gaussian st.pc_originalSecond = true)
    (ho : st.pane_isOrtho = false)
    (ht1 : truthy st.pc_originalFirst = true)
    (ht2 : truthy st.pc_originalSecond = true) :
    constructedWorkers (do_local_registration st a b c d e f g) =
      [⟨WorkerKind.localRegistrator, st.pane_pc1, st.pane_pc2,
        st.transformation_matrix, none, none, none, [a, b, c, d, e, f, g]⟩] ∧
    constructedWorkers (do_ransac_registration st a b c d e f g h) =
      [⟨WorkerKind.ransacRegistrator, st.pane_pc1, st.pane_pc2,
        st.transformation_matrix, none, none, none, [a, b, c, d, e, f, g, h]⟩] ∧
    constructedWorkers (do_fgr_registration st a b c d e f g h i) =
      [⟨WorkerKind.fgrRegistrator, st.pane_pc1, st.pane_pc2,
        st.transformation_matrix, none, none, none, [a, b, c, d, e, f, g, h, i]⟩] ∧
    constructedWorkers (do_multi_scale_registration st a b c d e f g h i j) =
      [⟨WorkerKind.multiScaleRegistrator, st.pane_pc1, st.pane_pc2,
        st.transformation_matrix, none, none, none, [a, b, c, d, e, f, g, h, i, j]⟩] ∧
    constructedWorkers (rasterize_gaussians st a b c d intr) =
      [⟨WorkerKind.rasterizerWorker, st.pc_originalFirst, st.pc_originalSecond,
        st.transformation_matrix, some (astypeFloat32 st.pane_extrinsic),
        some (match intr with
              | none => astypeFloat32 st.pane_intrinsic
              | some m => m),
        none, [c, d, b, a]⟩] ∧
    constructedWorkers (evaluate_registration st a b c d e) =
      [⟨WorkerKind.registrationEvaluator, st.pc_originalFirst, st.pc_originalSecond,
        st.transformation_matrix, none, none, st.local_registration_data,
        [a, b, c, d, e]⟩] := by
  refine ⟨rfl, rfl, rfl, rfl, ?_, ?_⟩
  · simp only [rasterize_gaussians, hg1, hg2, ho]
    cases intr <;> rfl
  · simp only [evaluate_registration, ht1, ht2]
    rfl

/-- Claim C7 witness: the delegation property instantiated on a concrete
loaded state. -/
theorem c7_delegation_witness :
    constructedWorkers (do_local_registration stGauss "a" "b" "c" "d" "e" "f" "g") =
      [⟨WorkerKind.localRegistrator, some gaussPC, some gaussPC, ⟨0, false⟩,
        none, none, none, ["a", "b", "c", "d", "e", "f", "g"]⟩] ∧
    constructedWorkers (rasterize_gaussians stGauss "a" "b" "c" "d" none) =
      [⟨WorkerKind.rasterizerWorker, some gaussPC, some gaussPC, ⟨0, false⟩,
        some ⟨1, true⟩, some ⟨2, true⟩, none, ["c", "d", "b", "a"]⟩] ∧
    constructedWorkers (evaluate_registration stGauss "a" "b" "c" "d" "e") =
      [⟨WorkerKind.registrationEvaluator, some gaussPC, some gaussPC, ⟨0, false⟩,
        none, none, none, ["a", "b", "c", "d", "e"]⟩] := by
  have h := c7_delegation stGauss "a" "b" "c" "d" "e" "f" "g" "h" "i" "j" none
    rfl rfl rfl rfl rfl
  exact ⟨h.1, h.2.2.2.2.1, h.2.2.2.2.2⟩

/-- Claim C9: handle_result leaves the window state untouched and performs no
save or pane load when either received point cloud is falsy, only showing
the import error dialog; when both are truthy it overwrites the stored originals
with the received original values, runs the PointCloudSaver exactly when
requested, and asks the Open3D pane to load the new point clouds. -/
theorem c9_handle_result (st : MainWindowState)
    (pcf pcs : Option PointCloud) (sv : Bool) (o1 o2 : Option PointCloud) :
    ((truthy pcf && truthy pcs) = false →
      handle_result st pcf pcs sv o1 o2 =
        (st, [Event.showErrorDialog importFailedMessage])) ∧
    ((truthy pcf && truthy pcs) = true →
      handle_result st pcf pcs sv o1 o2 =
        (⟨o1, o2, st.pane_pc1, st.pane_pc2, st.transformation_matrix,
          st.pane_isOrtho, st.pane_extrinsic, st.pane_intrinsic,
          st.local_registration_data⟩,
         (if sv then [Event.runPointCloudSaver pcf pcs] else []) ++
           [Event.paneLoadPointClouds pcf pcs])) := by
  constructor
  · intro h
    rcases h1 : truthy pcf with _ | _ <;> rcases h2 : truthy pcs with _ | _
    · simp [handle_result, check_if_none_and_throw_error, h1, h2]
    · simp [handle_result, check_if_none_and_throw_error, h1, h2]
    · simp [handle_result, check_if_none_and_throw_error, h1, h2]
    · simp [h1, h2] at h
  · intro h
    rcases h1 : truthy pcf with _ | _ <;> rcases h2 : truthy pcs with _ | _
    · simp [h1, h2] at h
    · simp [h1, h2] at h
    · simp [h1, h2] at h
    · simp [handle_result, check_if_none_and_throw_error, h1, h2]

/-- Claim C9 witness: handle_result instantiated on a failed and on a
successful import. -/
theorem c9_handle_result_witness :
    handle_result stGauss none (some gaussPC) true (some plainPC) none =
      (stGauss, [Event.showErrorDialog importFailedMessage]) ∧
    handle_result stGauss (some gaussPC) (some gaussPC) true (some plainPC) none =
      (⟨some plainPC, none, some gaussPC, some gaussPC, ⟨0, false⟩, false,
        ⟨1, false⟩, ⟨2, false⟩, none⟩,
       [Event.runPointCloudSaver (some gaussPC) (some gaussPC),
        Event.paneLoadPointClouds (some gaussPC) (some gaussPC)]) := by
  have h1 := (c9_handle_result stGauss none (some gaussPC) true (some plainPC) none).1 rfl
  have h2 := (c9_handle_result stGauss (some gaussPC) (some gaussPC) true
    (some plainPC) none).2 rfl
  exact ⟨h1, h2⟩

/-- Claim C10 counterexample: on the spawn path with supplied intrinsics the
rasterizer worker receives them exactly as supplied, dtype untouched, so it is
not the case that supplied intrinsics are cast to float32. -/
theorem c10_counterexample :
    (constructedWorkers (rasterize_gaussians stGauss "w" "h" "s" "c"
        (some suppliedIntr))).map WorkerArgs.intrinsic = [some suppliedIntr] ∧
    suppliedIntr.isF32 = false ∧
    (rasterize_gaussians stGauss "w" "h" "s" "c" (some suppliedIntr)).countP
      isCreateThread = 1 :=
  ⟨rfl, rfl, rfl⟩

/-- Claim C10 (amended): rasterize_gaussians spawns a worker thread only when
both stored originals pass is_point_cloud_gaussian and the projection is not
orthographic, showing an error dialog and creating no thread otherwise; when
it proceeds it hands the worker the supplied intrinsics unchanged if they are
not None and otherwise the pane intrinsics cast to float32, together with the
pane extrinsics cast to float32. -/
theorem c10_raster_guards (st : MainWindowState) (a b c d : Param)
    (intr : Option Matrix) :
    ((is_point_cloud_gaussian st.pc_originalFirst &&
        is_point_cloud_gaussian st.pc_originalSecond) = false →
      rasterize_gaussians st a b c d intr =
        [Event.showErrorDialog rasterNotGaussianMessage]) ∧
    ((is_point_cloud_gaussian st.pc_originalFirst &&
        is_point_cloud_gaussian st.pc_originalSecond) = true →
      st.pane_isOrtho = true →
      rasterize_gaussians st a b c d intr =
        [Event.showErrorDialog rasterOrthoMessage]) ∧
    ((is_point_cloud_gaussian st.pc_originalFirst &&
        is_point_cloud_gaussian st.pc_originalSecond) = true →
      st.pane_isOrtho = false →
      (rasterize_gaussians st a b c d intr).countP isCreateThread = 1 ∧
      (constructedWorkers (rasterize_gaussians st a b c d intr)).map
          WorkerArgs.intrinsic =
        [some (match intr with
               | none => astypeFloat32 st.pane_intrinsic
               | some m => m)] ∧
      (constructedWorkers (rasterize_gaussians st a b c d intr)).map
          WorkerArgs.extrinsic =
        [some (astypeFloat32 st.pane_extrinsic)]) := by
  refine ⟨?_, ?_, ?_⟩
  · intro h
    rcases h1 : is_point_cloud_gaussian st.pc_originalFirst with _ | _ <;>
      rcases h2 : is_point_cloud_gaussian st.pc_originalSecond with _ | _
    · simp [rasterize_gaussians, h1, h2]
    · simp [rasterize_gaussians, h1, h2]
    · simp [rasterize_gaussians, h1, h2]
    · simp [h1, h2] at h
  · intro h ho
    rcases h1 : is_point_cloud_gaussian st.pc_originalFirst with _ | _ <;>
      rcases h2 : is_point_cloud_gaussian st.pc_originalSecond with _ | _
    · simp [h1, h2] at h
    · simp [h1, h2] at h
    · simp [h1, h2] at h
    · simp [rasterize_gaussians, h1, h2, ho]
  · intro h ho
    rcases h1 : is_point_cloud_gaussian st.pc_originalFirst with _ | _ <;>
      rcases h2 : is_point_cloud_gaussian st.pc_originalSecond with _ | _
    · simp [h1, h2] at h
    · simp [h1, h2] at h
    · simp [h1, h2] at h
    · simp only [rasterize_gaussians, h1, h2, ho]
      cases intr <;> exact ⟨rfl, rfl, rfl⟩

/-- Claim C10 witness: the guards instantiated on a non-Gaussian state, an
orthographic state, and a passing state with and without supplied
intrinsics. -/
theorem c10_raster_guards_witness :
    rasterize_gaussians stPlain "w" "h" "s" "c" none =
      [Event.showErrorDialog rasterNotGaussianMessage] ∧
    (rasterize_gaussians stGauss "w" "h" "s" "c" none).countP isCreateThread = 1 ∧
    (constructedWorkers (rasterize_gaussians stGauss "w" "h" "s" "c" none)).map
      WorkerArgs.intrinsic = [some ⟨2, true⟩] ∧
    (constructedWorkers (rasterize_gaussians stGauss "w" "h" "s" "c" none)).map
      WorkerArgs.extrinsic = [some ⟨1, true⟩] := by
  have hbad := (c10_raster_guards stPlain "w" "h" "s" "c" none).1 rfl
  have hgood := (c10_raster_guards stGauss "w" "h" "s" "c" none).2.2 rfl rfl
  exact ⟨hbad, hgood.1, hgood.2.1, hgood.2.2⟩

end GSplatReg
